import Mathlib

/-!
Verification development for the Golden-Cross futures-trading agent.

The decision engine (`src/services/aiService.ts`) and the execution client
(`src/unnamed/part_000`, the OKX REST client) are shallowly embedded here:

* Numeric strings of the exchange API (`c`, `h`, `l`, `avgPx`, `upl`, ...)
  are modelled as rationals (`ℚ`), i.e. the value `parseFloat` would return.
  A `parseFloat` result that may be `NaN` is modelled as `Option ℚ`
  (`none` = NaN / unparsable).
* JavaScript `Number.prototype.toFixed(2)` is modelled as exact
  round-half-up to two decimals (`round2`), ignoring binary-double
  representation error.
* Free-text rationale strings are abstracted to the inductive `Reason`,
  one constructor per distinct string template in the source.
* Network effects of the execution client are made explicit: the exchange's
  responses are an input (`ExchangeEnv`) and the requests issued are
  returned as an ordered trace (`List ApiCall`).
-/

namespace GoldenCross

unseal Rat.mul Rat.inv Rat.add Rat.sub

set_option maxRecDepth 8000

/-- Candle from `src/types.ts` (`CandleData`): numeric string fields as ℚ. -/
structure Candle where
  ts : String
  o : ℚ
  h : ℚ
  l : ℚ
  c : ℚ
  vol : ℚ
deriving DecidableEq, Repr

/-- Position side from `src/types.ts` (`'long' | 'short' | 'net'`). -/
inductive PosSide
  | long
  | short
  | net
deriving DecidableEq, Repr

/-- Position from `src/types.ts` (`PositionData`); the optional stop/take
trigger prices are `Option ℚ` (`none` = field absent). -/
structure Position where
  instId : String
  posSide : PosSide
  pos : ℚ
  avgPx : ℚ
  upl : ℚ
  uplRatio : ℚ
  mgnMode : String
  margin : ℚ
  liqPx : ℚ
  cTime : String
  slTriggerPx : Option ℚ
  tpTriggerPx : Option ℚ
deriving DecidableEq, Repr

/-- Account balance from `src/types.ts` (`AccountBalance`). -/
structure AccountBalance where
  totalEq : ℚ
  availEq : ℚ
  uTime : String
deriving DecidableEq, Repr

/-- Account snapshot from `src/types.ts` (`AccountContext`). -/
structure AccountContext where
  balance : AccountBalance
  positions : List Position
deriving DecidableEq, Repr

/-- Ticker from `src/types.ts` (`TickerData`); only `last` is ever parsed by
the decision engine, the remaining numeric strings are carried verbatim. -/
structure Ticker where
  instId : String
  last : ℚ
  lastSz : String
  askPx : String
  bidPx : String
  open24h : String
  high24h : String
  low24h : String
  volCcy24h : String
  ts : String
deriving DecidableEq, Repr

/-- Market snapshot from `src/types.ts` (`MarketDataCollection`); the
`orderbook`/`trades` fields are never read by the decision engine and are
omitted. `ticker` is `Option` because the type is `TickerData | null`. -/
structure MarketDataCollection where
  ticker : Option Ticker
  candles1H : List Candle
  candles3m : List Candle
  fundingRate : ℚ
  openInterest : ℚ
deriving DecidableEq, Repr

/-- Modelled from the spec: `src/constants.ts` is not among the provided
sources. The spec (§8, "contract value=0.1") and the source comment
"1张 = 0.1 ETH" in `aiService.ts` fix the per-contract underlying value. -/
def CONTRACT_VAL_ETH : ℚ := 1 / 10

/-- Modelled from the spec: the tracked instrument id lives in the missing
`src/constants.ts`. Only equality of `Position.instId` with this constant is
ever used, so its exact text is irrelevant to every claim. -/
def INSTRUMENT_ID : String := "ETH-USDT-SWAP"

/-- Loop body of `calcEMA` (`aiService.ts` lines 15-19): given the running
`prevEma`, emit `input * k + prevEma * (1 - k)` for each remaining input. -/
def emaStep (k prev : ℚ) : List ℚ → List ℚ
  | [] => []
  | x :: xs =>
    let val := x * k + prev * (1 - k)
    val :: emaStep k val xs

/-- `calcEMA` (`aiService.ts` lines 6-21): seed with the first price, then
apply the EMA recurrence with `k = 2 / (period + 1)`. Empty input gives
empty output. -/
def calcEMA (prices : List ℚ) (period : ℕ) : List ℚ :=
  match prices with
  | [] => []
  | p :: rest => p :: emaStep (2 / ((period : ℚ) + 1)) p rest

theorem emaStep_const (k v : ℚ) :
    ∀ l : List ℚ, (∀ x ∈ l, x = v) → emaStep k v l = l := by
  intro l
  induction l with
  | nil => intro _; rfl
  | cons x xs ih =>
    intro h
    have hx : x = v := h x (List.mem_cons_self x xs)
    have hv : x * k + v * (1 - k) = x := by rw [hx]; ring
    have hxs : emaStep k x xs = xs := by
      rw [hx]
      exact ih (fun y hy => h y (List.mem_cons_of_mem _ hy))
    simp only [emaStep, hv, hxs]

theorem calcEMA_eq_self_of_const (v : ℚ) (p : ℕ) (l : List ℚ)
    (hc : ∀ x ∈ l, x = v) : calcEMA l p = l := by
  cases l with
  | nil => rfl
  | cons x xs =>
    have hx : x = v := hc x (List.mem_cons_self x xs)
    have hxs : emaStep (2 / ((p : ℚ) + 1)) x xs = xs := by
      rw [hx]
      exact emaStep_const _ v xs (fun y hy => hc y (List.mem_cons_of_mem _ hy))
    simp only [calcEMA, hxs]

/-- C9: for every period `p ≥ 1` and every non-empty constant input series
(all elements equal to `v`), `calcEMA` returns a series of the same length
all of whose elements equal `v` — constant series are a fixed point of the
seed and of each step of the recurrence. -/
theorem calcEMA_constant_series (v : ℚ) (p : ℕ) (l : List ℚ)
    (hp : 1 ≤ p) (hne : l ≠ []) (hc : ∀ x ∈ l, x = v) :
    (calcEMA l p).length = l.length ∧ ∀ y ∈ calcEMA l p, y = v := by
  rw [calcEMA_eq_self_of_const v p l hc]
  exact ⟨rfl, hc⟩

/-- Witness for C9 at period 3 and the constant series `[7, 7, 7]`. -/
theorem calcEMA_constant_series_witness :
    (calcEMA [(7 : ℚ), 7, 7] 3).length = ([(7 : ℚ), 7, 7]).length ∧
      ∀ y ∈ calcEMA [(7 : ℚ), 7, 7] 3, y = 7 :=
  calcEMA_constant_series 7 3 [7, 7, 7] (by decide) (by decide)
    (by intro x hx; fin_cases hx <;> rfl)

/-- Crossover kind from `aiService.ts` (`CrossEvent.type`): GOLDEN means the
fast EMA crossed above the slow one, DEAD means it crossed below. -/
inductive CrossType
  | GOLDEN
  | DEAD
deriving DecidableEq, Repr

/-- `CrossEvent` from `aiService.ts` lines 25-30. -/
structure CrossEvent where
  index : ℕ
  type : CrossType
  price : ℚ
  ts : String
deriving DecidableEq, Repr

/-- Default `CrossEvent` used only as the (never reached) out-of-bounds
default of `List.getD`; the code indexes `crosses` only under a
`crosses.length >= 2` guard. -/
def defaultCross : CrossEvent := ⟨0, .GOLDEN, 0, ""⟩

/-- Normalized action strings of the decision engine. -/
inductive Action
  | BUY
  | SELL
  | HOLD
  | CLOSE
  | UPDATE_TPSL
deriving DecidableEq, Repr

/-- Abstraction of the free-text rationale strings of `aiService.ts`: one
constructor per distinct string template (numeric interpolation dropped). -/
inductive Reason
  | dataInsufficient
  | closeShortOnUptrend
  | closeLongOnDowntrend
  | signalBuy
  | signalSell
  | breakeven
  | trailing
  | monitoring
  | empty
deriving DecidableEq, Repr

/-- Result record of `analyzeStrategy` (its returned object literal). -/
structure StrategyResult where
  action : Action
  reason : Reason
  sl : ℚ
  isUpTrend : Bool
deriving DecidableEq, Repr

/-- `Number.MAX_VALUE` as an exact rational (seed of the min-low fold in
`aiService.ts` line 117). -/
def NUMBER_MAX_VALUE : ℚ := 2 ^ 1024 - 2 ^ 971

/-- `Number.MIN_VALUE` (the smallest positive double, `2⁻¹⁰⁷⁴`) as an exact
rational (seed of the max-high fold in `aiService.ts` line 130). -/
def NUMBER_MIN_VALUE : ℚ := 1 / 2 ^ 1074

/-- Scan start of the crossover loop (`aiService.ts` line 70):
`Math.max(1, length - 50)`. -/
def scanStart (n : ℕ) : ℕ := max 1 (n - 50)

/-- Loop body of the crossover scan (`aiService.ts` lines 72-83) at one
index `i`. Out-of-range reads default to `0` / `""`; the loop only ever
reads in range (`1 ≤ i < n` and the EMA series have length `n`). -/
def crossAt (ema15 ema60 closes : List ℚ) (tss : List String) (i : ℕ) :
    Option CrossEvent :=
  let prev15 := ema15.getD (i - 1) 0
  let prev60 := ema60.getD (i - 1) 0
  let curr15 := ema15.getD i 0
  let curr60 := ema60.getD i 0
  if prev15 ≤ prev60 ∧ curr15 > curr60 then
    some ⟨i, .GOLDEN, closes.getD i 0, tss.getD i ""⟩
  else if prev15 ≥ prev60 ∧ curr15 < curr60 then
    some ⟨i, .DEAD, closes.getD i 0, tss.getD i ""⟩
  else none

/-- Crossover scanner (`aiService.ts` lines 68-83): collect the cross events
at indices `scanStart n, …, n - 1` in chronological order. -/
def scanCrosses (ema15 ema60 closes : List ℚ) (tss : List String) (n : ℕ) :
    List CrossEvent :=
  (List.range' (scanStart n) (n - scanStart n)).filterMap
    (crossAt ema15 ema60 closes tss)

/-- Stop-loss helper for the BUY branch (`aiService.ts` lines 117-120): fold
of `min` over `lows[a..b]` seeded with `Number.MAX_VALUE`. -/
def minLowOver (lows : List ℚ) (a b : ℕ) : ℚ :=
  (List.range' a (b + 1 - a)).foldl
    (fun m i => if lows.getD i 0 < m then lows.getD i 0 else m) NUMBER_MAX_VALUE

/-- Stop-loss helper for the SELL branch (`aiService.ts` lines 130-133): fold
of `max` over `highs[a..b]` seeded with `Number.MIN_VALUE`. -/
def maxHighOver (highs : List ℚ) (a b : ℕ) : ℚ :=
  (List.range' a (b + 1 - a)).foldl
    (fun m i => if highs.getD i 0 > m then highs.getD i 0 else m) NUMBER_MIN_VALUE

/-- The 1H closes (`aiService.ts` line 49). -/
def closes1hOf (m : MarketDataCollection) : List ℚ := m.candles1H.map (·.c)

/-- Trend flag (`aiService.ts` lines 50-56): `EMA15 > EMA60` of the 1H closes
at the last index. -/
def isUpTrend1H (m : MarketDataCollection) : Bool :=
  decide ((calcEMA (closes1hOf m) 15).getD (m.candles1H.length - 1) 0 >
    (calcEMA (closes1hOf m) 60).getD (m.candles1H.length - 1) 0)

/-- The 3m closes (`aiService.ts` line 60). -/
def closes3mOf (m : MarketDataCollection) : List ℚ := m.candles3m.map (·.c)

/-- The 3m highs (`aiService.ts` line 61). -/
def highs3mOf (m : MarketDataCollection) : List ℚ := m.candles3m.map (·.h)

/-- The 3m lows (`aiService.ts` line 62). -/
def lows3mOf (m : MarketDataCollection) : List ℚ := m.candles3m.map (·.l)

/-- The crossover events of the 3m EMA15/EMA60 pair (`aiService.ts`
lines 64-83). -/
def crosses3m (m : MarketDataCollection) : List CrossEvent :=
  scanCrosses (calcEMA (closes3mOf m) 15) (calcEMA (closes3mOf m) 60)
    (closes3mOf m) (m.candles3m.map (·.ts)) m.candles3m.length

/-- `crosses[crosses.length - 1]` (`aiService.ts` line 105). -/
def lastCrossOf (m : MarketDataCollection) : CrossEvent :=
  (crosses3m m).getD ((crosses3m m).length - 1) defaultCross

/-- `crosses[crosses.length - 2]` (`aiService.ts` line 106). -/
def prevCrossOf (m : MarketDataCollection) : CrossEvent :=
  (crosses3m m).getD ((crosses3m m).length - 2) defaultCross

/-- `positions.find(p => p.instId === INSTRUMENT_ID)` (`aiService.ts`
line 90). -/
def primaryPosOf (a : AccountContext) : Option Position :=
  a.positions.find? (fun p => p.instId == INSTRUMENT_ID)

/-- `analyzeStrategy` (`aiService.ts` lines 39-148). The control flow is the
source's: insufficient-data guard, trend-reversal exit for an open position,
then the entry state machine gated on no position, at least two cross
events, and freshness of the last event. -/
def analyzeStrategy (m : MarketDataCollection) (a : AccountContext) :
    StrategyResult :=
  if m.candles1H.length < 60 ∨ m.candles3m.length < 60 then
    ⟨.HOLD, .dataInsufficient, 0, false⟩
  else
    match primaryPosOf a with
    | some p =>
      if isUpTrend1H m = true ∧ p.posSide = .short then
        ⟨.CLOSE, .closeShortOnUptrend, 0, isUpTrend1H m⟩
      else if isUpTrend1H m = false ∧ p.posSide = .long then
        ⟨.CLOSE, .closeLongOnDowntrend, 0, isUpTrend1H m⟩
      else
        ⟨.HOLD, .monitoring, 0, isUpTrend1H m⟩
    | none =>
      if 2 ≤ (crosses3m m).length then
        if m.candles3m.length - 1 - (lastCrossOf m).index ≤ 2 then
          if isUpTrend1H m = true then
            if (prevCrossOf m).type = .DEAD ∧ (lastCrossOf m).type = .GOLDEN then
              ⟨.BUY, .signalBuy,
                minLowOver (lows3mOf m) (prevCrossOf m).index (lastCrossOf m).index *
                  (9995 / 10000), isUpTrend1H m⟩
            else ⟨.HOLD, .monitoring, 0, isUpTrend1H m⟩
          else
            if (prevCrossOf m).type = .GOLDEN ∧ (lastCrossOf m).type = .DEAD then
              ⟨.SELL, .signalSell,
                maxHighOver (highs3mOf m) (prevCrossOf m).index (lastCrossOf m).index *
                  (10005 / 10000), isUpTrend1H m⟩
            else ⟨.HOLD, .monitoring, 0, isUpTrend1H m⟩
        else ⟨.HOLD, .monitoring, 0, isUpTrend1H m⟩
      else ⟨.HOLD, .monitoring, 0, isUpTrend1H m⟩

/-- C5: whenever either candle series contains fewer than 60 entries, the
strategy returns Hold with the data-accumulating rationale, regardless of
the price contents of either series and of the account's positions. -/
theorem analyzeStrategy_hold_on_insufficient_data (m : MarketDataCollection)
    (a : AccountContext)
    (hlen : m.candles1H.length < 60 ∨ m.candles3m.length < 60) :
    (analyzeStrategy m a).action = .HOLD ∧
      (analyzeStrategy m a).reason = .dataInsufficient := by
  rw [analyzeStrategy, if_pos hlen]
  exact ⟨rfl, rfl⟩

/-- Witness for C5: empty candle series force Hold. -/
theorem analyzeStrategy_hold_on_insufficient_data_witness :
    (analyzeStrategy ⟨none, [], [], 0, 0⟩ ⟨⟨1000, 1000, ""⟩, []⟩).action = .HOLD ∧
      (analyzeStrategy ⟨none, [], [], 0, 0⟩ ⟨⟨1000, 1000, ""⟩, []⟩).reason =
        .dataInsufficient :=
  analyzeStrategy_hold_on_insufficient_data _ _ (by decide)

/-- C2: with at least 60 candles on both timeframes, if the tracked
instrument has an open position whose side contradicts the 1H trend (long
while `EMA15 > EMA60` fails, or short while it holds), the strategy returns
Close — before and regardless of any entry logic (the statement quantifies
over the whole 3m series, hence over every crossover state). -/
theorem analyzeStrategy_close_on_trend_reversal (m : MarketDataCollection)
    (a : AccountContext) (p : Position)
    (h1 : 60 ≤ m.candles1H.length) (h2 : 60 ≤ m.candles3m.length)
    (hpos : primaryPosOf a = some p)
    (hcontra : (p.posSide = .long ∧ isUpTrend1H m = false) ∨
      (p.posSide = .short ∧ isUpTrend1H m = true)) :
    (analyzeStrategy m a).action = .CLOSE := by
  have hlen : ¬(m.candles1H.length < 60 ∨ m.candles3m.length < 60) := by omega
  rw [analyzeStrategy, if_neg hlen, hpos]
  rcases hcontra with ⟨hside, htrend⟩ | ⟨hside, htrend⟩
  · simp [hside, htrend]
  · simp [hside, htrend]

/-- Candle all of whose price fields equal `v` (witness-building helper). -/
def mkC (v : ℚ) : Candle := ⟨"", v, v, v, v, 0⟩

/-- Witness market for C2: 59 candles at 100 then a drop to 0 on the 1H
series (downtrend), a flat 3m series. -/
def mC2 : MarketDataCollection :=
  ⟨none, List.replicate 59 (mkC 100) ++ [mkC 0], List.replicate 60 (mkC 100), 0, 0⟩

/-- Witness account for C2: an open long position on the tracked
instrument. -/
def aC2 : AccountContext :=
  ⟨⟨1000, 1000, ""⟩,
    [⟨INSTRUMENT_ID, .long, 1, 100, 0, 0, "isolated", 10, 50, "", none, none⟩]⟩

/-- Witness for C2: a long position in a forced 1H downtrend yields Close. -/
theorem analyzeStrategy_close_on_trend_reversal_witness :
    (analyzeStrategy mC2 aC2).action = .CLOSE :=
  analyzeStrategy_close_on_trend_reversal mC2 aC2
    ⟨INSTRUMENT_ID, .long, 1, 100, 0, 0, "isolated", 10, 50, "", none, none⟩
    (by decide) (by decide) (by decide) (Or.inl ⟨rfl, by decide⟩)

/-- C1: with at least 60 candles on both timeframes, no open position on the
tracked instrument, a 1H uptrend, at least two 3m cross events whose final
two are Dead then Golden, and the last event within 2 candles of the series
end, the strategy returns Buy with stop-loss
`min(low[prev.index..last.index]) * 0.9995`. -/
theorem analyzeStrategy_buy_on_pullback_recovery (m : MarketDataCollection)
    (a : AccountContext)
    (h1 : 60 ≤ m.candles1H.length) (h2 : 60 ≤ m.candles3m.length)
    (hpos : primaryPosOf a = none)
    (hup : isUpTrend1H m = true)
    (hn : 2 ≤ (crosses3m m).length)
    (hprev : (prevCrossOf m).type = .DEAD)
    (hlast : (lastCrossOf m).type = .GOLDEN)
    (hfresh : m.candles3m.length - 1 - (lastCrossOf m).index ≤ 2) :
    (analyzeStrategy m a).action = .BUY ∧
      (analyzeStrategy m a).sl =
        minLowOver (lows3mOf m) (prevCrossOf m).index (lastCrossOf m).index *
          (9995 / 10000) := by
  have hlen : ¬(m.candles1H.length < 60 ∨ m.candles3m.length < 60) := by omega
  rw [analyzeStrategy, if_neg hlen, hpos]
  rw [if_pos hn, if_pos hfresh, if_pos hup, if_pos ⟨hprev, hlast⟩]
  exact ⟨rfl, rfl⟩

/-- Witness market for C1: a 1H series jumping up at the end (uptrend) and a
3m series flat at 100, dipping to 1 at index 58 (Dead cross) and jumping to
1000 at index 59 (Golden cross), both within the last 2 candles. -/
def mC1 : MarketDataCollection :=
  ⟨none, List.replicate 59 (mkC 100) ++ [mkC 1000],
    List.replicate 58 (mkC 100) ++ [mkC 1, mkC 1000], 0, 0⟩

/-- Witness account for C1: no open positions. -/
def aC1 : AccountContext := ⟨⟨1000, 1000, ""⟩, []⟩

/-- Witness for C1 at the engineered market data. -/
theorem analyzeStrategy_buy_on_pullback_recovery_witness :
    (analyzeStrategy mC1 aC1).action = .BUY ∧
      (analyzeStrategy mC1 aC1).sl =
        minLowOver (lows3mOf mC1) (prevCrossOf mC1).index (lastCrossOf mC1).index *
          (9995 / 10000) :=
  analyzeStrategy_buy_on_pullback_recovery mC1 aC1 (by decide) (by decide)
    (by decide) (by decide) (by decide) (by decide) (by decide) (by decide)

/-- JavaScript `Number.prototype.toFixed(2)` modelled as exact round-half-up
to two decimal places (ignoring the binary-double representation error of
the source's floating-point values). -/
def round2 (x : ℚ) : ℚ := ((⌊x * 100 + 1 / 2⌋ : ℤ) : ℚ) / 100

/-- Finite stand-in for the JS `Infinity` produced by `Math.min()` on an
empty argument list; only reachable when the 3m series is empty. -/
def JS_INFINITY : ℚ := 2 ^ 1100

/-- Finite stand-in for the JS `-Infinity` produced by `Math.max()` on an
empty argument list; only reachable when the 3m series is empty. -/
def JS_NEG_INFINITY : ℚ := -(2 ^ 1100)

/-- `Math.min(...values)`: pairwise minimum, `Infinity` when empty. -/
def jsMathMin (l : List ℚ) : ℚ :=
  match l with
  | [] => JS_INFINITY
  | x :: xs => xs.foldl min x

/-- `Math.max(...values)`: pairwise maximum, `-Infinity` when empty. -/
def jsMathMax (l : List ℚ) : ℚ :=
  match l with
  | [] => JS_NEG_INFINITY
  | x :: xs => xs.foldl max x

/-- Estimated mark price (`aiService.ts` line 154):
`avgPx + upl / (pos * CONTRACT_VAL_ETH)`. Division by zero is `0` in ℚ
(JS would give `±Infinity`), so theorems about this quantity assume
`0 < pos`. -/
def markPxOf (pos : Position) : ℚ :=
  pos.avgPx + pos.upl / (pos.pos * CONTRACT_VAL_ETH)

/-- `parseFloat(pos.slTriggerPx || "0")` (`aiService.ts` line 155). -/
def currentSLOf (pos : Position) : ℚ := pos.slTriggerPx.getD 0

/-- `c3m.slice(-5)` (`aiService.ts` lines 158-159). -/
def recentCandlesOf (c3m : List Candle) : List Candle :=
  c3m.drop (c3m.length - 5)

/-- Minimum low of the last 5 candles (`aiService.ts` line 175). -/
def recentLowOf (c3m : List Candle) : ℚ :=
  jsMathMin ((recentCandlesOf c3m).map (·.l))

/-- Maximum high of the last 5 candles (`aiService.ts` line 192). -/
def recentHighOf (c3m : List Candle) : ℚ :=
  jsMathMax ((recentCandlesOf c3m).map (·.h))

/-- Proposal record returned by `calculateManagement`
(`{sl: newSL.toFixed(2), reason}`, `aiService.ts` line 203). -/
structure MgmtAction where
  sl : ℚ
  reason : Reason
deriving DecidableEq, Repr

/-- `calculateManagement` (`aiService.ts` lines 151-206): breakeven stop and
trailing stop for the open position, with the emission gate
`newSL > 0 ∧ |newSL - currentSL| > entry * 0.0005` and `toFixed(2)`
formatting of the emitted stop. -/
def calculateManagement (pos : Position) (c3m : List Candle) : Option MgmtAction :=
  let entryPx := pos.avgPx
  let markPx := markPxOf pos
  let currentSL := currentSLOf pos
  let step : ℚ × Reason :=
    if pos.posSide = .long then
      if markPx > entryPx + entryPx * (5 / 1000) ∧ currentSL < entryPx then
        (entryPx, .breakeven)
      else
        let trailSL := recentLowOf c3m * (9995 / 10000)
        if trailSL > currentSL ∧ trailSL > entryPx ∧ trailSL < markPx then
          (trailSL, .trailing)
        else (0, .empty)
    else if pos.posSide = .short then
      if markPx < entryPx - entryPx * (5 / 1000) ∧ (currentSL > entryPx ∨ currentSL = 0) then
        (entryPx, .breakeven)
      else
        let trailSL := recentHighOf c3m * (10005 / 10000)
        if (trailSL < currentSL ∨ currentSL = 0) ∧ trailSL < entryPx ∧ trailSL > markPx then
          (trailSL, .trailing)
        else (0, .empty)
    else (0, .empty)
  if step.1 > 0 ∧ |step.1 - currentSL| > entryPx * (5 / 10000) then
    some ⟨round2 step.1, step.2⟩
  else none

/-- C6 (amended): once the mark price has moved favorably by more than 0.5%
of entry beyond entry while the current stop (absent treated as 0) is still
worse than entry, and entry differs from the current stop by more than
0.05% of entry, the manager proposes the breakeven stop — the entry price
as formatted by `toFixed(2)` (`round2`), not the exact entry. Long and
short cases are the two conjuncts. -/
theorem calculateManagement_breakeven_spec (p : Position) (c3m : List Candle)
    (hentry : 0 < p.avgPx) (hsz : 0 < p.pos) :
    (p.posSide = .long →
      markPxOf p > p.avgPx + p.avgPx * (5 / 1000) →
      currentSLOf p < p.avgPx →
      |p.avgPx - currentSLOf p| > p.avgPx * (5 / 10000) →
      calculateManagement p c3m = some ⟨round2 p.avgPx, .breakeven⟩) ∧
    (p.posSide = .short →
      markPxOf p < p.avgPx - p.avgPx * (5 / 1000) →
      (currentSLOf p > p.avgPx ∨ currentSLOf p = 0) →
      |p.avgPx - currentSLOf p| > p.avgPx * (5 / 10000) →
      calculateManagement p c3m = some ⟨round2 p.avgPx, .breakeven⟩) := by
  constructor
  · intro hlong hmark hsl hgate
    simp [calculateManagement, hlong, hmark, hsl, hgate, hentry]
  · intro hshort hmark hsl hgate
    simp [calculateManagement, hshort, hmark, hsl, hgate, hentry]

/-- Long position at entry 100.006 with a large favorable move and current
stop 90 (counterexample data for C6). -/
def pC6 : Position :=
  ⟨INSTRUMENT_ID, .long, 1, 100006 / 1000, 1, 0, "isolated", 10, 50, "", some 90, none⟩

/-- Counterexample to C6 as stated: every condition of the claim holds
(mark 110.006 exceeds entry 100.006 by far more than 0.5%, current stop 90
is below entry, entry differs from the stop by more than 0.05% of entry),
yet the emitted stop is `toFixed(2)` of the entry — 100.01, not the entry
price 100.006 itself. -/
theorem calculateManagement_breakeven_rounding_counterexample :
    pC6.avgPx = 100006 / 1000 ∧
    markPxOf pC6 > pC6.avgPx + pC6.avgPx * (5 / 1000) ∧
    currentSLOf pC6 < pC6.avgPx ∧
    |pC6.avgPx - currentSLOf pC6| > pC6.avgPx * (5 / 10000) ∧
    calculateManagement pC6 [] = some ⟨10001 / 100, .breakeven⟩ ∧
    (10001 / 100 : ℚ) ≠ pC6.avgPx := by decide

/-- Long position at entry 100, mark 110, current stop 90 (witness data for
the amended C6). -/
def pW6 : Position :=
  ⟨INSTRUMENT_ID, .long, 1, 100, 1, 0, "isolated", 10, 50, "", some 90, none⟩

/-- Witness for the amended C6: at entry 100 (two decimal places) the
proposed breakeven stop is exactly the entry price. -/
theorem calculateManagement_breakeven_spec_witness :
    calculateManagement pW6 [] = some ⟨round2 (100 : ℚ), Reason.breakeven⟩ :=
  (calculateManagement_breakeven_spec pW6 [] (by decide) (by decide)).1
    (by decide) (by decide) (by decide) (by decide)

/-- C7 (amended): for a long position outside the breakeven case, the
manager proposes the trailing stop `min(low[last 5]) * 0.9995` (emitted
through `toFixed(2)`, i.e. `round2`) whenever that value exceeds the
current stop, exceeds the entry price, lies below the mark price, and
differs from the current stop by more than 0.05% of entry. In the claim's
own numbers (entry 100, min low 98) the proposal is never emitted, because
98 × 0.9995 = 97.951 does not exceed the entry price — see the
counterexample. -/
theorem calculateManagement_trailing_spec (p : Position) (c3m : List Candle)
    (hentry : 0 < p.avgPx) (hsz : 0 < p.pos) (hlong : p.posSide = .long)
    (hnb : ¬(markPxOf p > p.avgPx + p.avgPx * (5 / 1000) ∧ currentSLOf p < p.avgPx))
    (h1 : recentLowOf c3m * (9995 / 10000) > currentSLOf p)
    (h2 : recentLowOf c3m * (9995 / 10000) > p.avgPx)
    (h3 : recentLowOf c3m * (9995 / 10000) < markPxOf p)
    (h4 : |recentLowOf c3m * (9995 / 10000) - currentSLOf p| > p.avgPx * (5 / 10000)) :
    calculateManagement p c3m =
      some ⟨round2 (recentLowOf c3m * (9995 / 10000)), .trailing⟩ := by
  have hpos9 : recentLowOf c3m * (9995 / 10000) > 0 := lt_trans hentry h2
  simp [calculateManagement, hlong, hnb, h1, h2, h3, h4, hpos9]

/-- Long position at entry 100, mark 100.1, current stop 90 (counterexample
data for C7). -/
def pC7 : Position :=
  ⟨INSTRUMENT_ID, .long, 10, 100, 1 / 10, 0, "isolated", 10, 50, "", some 90, none⟩

/-- The last five 3m candles all with low 98 (counterexample data for C7). -/
def cC7 : List Candle := List.replicate 5 (mkC 98)

/-- Counterexample to C7 as stated: entry 100, mark 100.1 (gain below 0.5%),
minimum low 98 over the last 5 candles, current stop 90. The candidate
trailing stop 98 × 0.9995 = 97.951 exceeds the current stop, lies below the
mark, and differs from the current stop by more than 0.05% of entry — yet
no proposal is emitted, because the code additionally requires the trailing
stop to exceed the entry price. -/
theorem calculateManagement_trailing_counterexample :
    pC7.avgPx = 100 ∧
    markPxOf pC7 = 1001 / 10 ∧
    recentLowOf cC7 = 98 ∧
    currentSLOf pC7 = 90 ∧
    recentLowOf cC7 * (9995 / 10000) > currentSLOf pC7 ∧
    recentLowOf cC7 * (9995 / 10000) < markPxOf pC7 ∧
    |recentLowOf cC7 * (9995 / 10000) - currentSLOf pC7| > pC7.avgPx * (5 / 10000) ∧
    calculateManagement pC7 cC7 = none := by decide

/-- Long position at entry 100, mark 100.4, current stop 90 (witness data
for the amended C7). -/
def pW7 : Position :=
  ⟨INSTRUMENT_ID, .long, 10, 100, 2 / 5, 0, "isolated", 10, 50, "", some 90, none⟩

/-- The last five 3m candles all with low 100.3 (witness data for the
amended C7). -/
def cW7 : List Candle := List.replicate 5 (mkC (1003 / 10))

/-- Witness for the amended C7: min low 100.3 gives trailing stop
100.3 × 0.9995 = 100.24985, emitted as its two-decimal rounding. -/
theorem calculateManagement_trailing_spec_witness :
    calculateManagement pW7 cW7 =
      some ⟨round2 (recentLowOf cW7 * (9995 / 10000)), Reason.trailing⟩ :=
  calculateManagement_trailing_spec pW7 cW7 (by decide) (by decide) (by decide)
    (by decide) (by decide) (by decide) (by decide) (by decide)

/-- The `trading_decision` record of the returned `AIDecision`
(`aiService.ts` lines 268-276); numeric-string fields that are parsed
downstream (`position_size`, `stop_loss`) as ℚ, the constant string fields
verbatim. -/
structure TradingDecisionFields where
  action : Action
  confidence : String
  position_size : ℚ
  leverage : String
  profit_target : String
  stop_loss : ℚ
  invalidation_condition : String
deriving DecidableEq, Repr

/-- The decision record returned by `getTradingDecision` (`aiService.ts`
lines 263-281); the presentation-only strings (`stage_analysis`,
`market_assessment`, `hot_events_overview`, `eth_analysis`) are omitted,
`reasoning` is the abstracted `Reason`. -/
structure AIDecisionOut where
  action : Action
  size : ℚ
  leverage : String
  trading_decision : TradingDecisionFields
  reason : Reason
deriving DecidableEq, Repr

/-- `parseFloat(marketData.ticker?.last || "0")` (`aiService.ts` line 242). -/
def entryPriceOf (m : MarketDataCollection) : ℚ :=
  match m.ticker with
  | some t => t.last
  | none => 0

/-- The management step of `getTradingDecision` (`aiService.ts`
lines 219-224): run `calculateManagement` only when the tracked instrument
has a position and the strategy said Hold. -/
def mgmtOf (m : MarketDataCollection) (a : AccountContext) : Option MgmtAction :=
  match primaryPosOf a with
  | some p =>
    if (analyzeStrategy m a).action = .HOLD then calculateManagement p m.candles3m
    else none
  | none => none

/-- `finalAction` (`aiService.ts` lines 227, 231-232). -/
def finalActionOf (m : MarketDataCollection) (a : AccountContext) : Action :=
  match mgmtOf m a with
  | some _ => .UPDATE_TPSL
  | none => (analyzeStrategy m a).action

/-- `finalSL` (`aiService.ts` lines 228, 233): the strategy's stop formatted
by `toFixed(2)` when positive, else "0"; the management stop is already
formatted. -/
def finalSLOf (m : MarketDataCollection) (a : AccountContext) : ℚ :=
  match mgmtOf m a with
  | some g => g.sl
  | none =>
    if (analyzeStrategy m a).sl > 0 then round2 (analyzeStrategy m a).sl else 0

/-- `finalReason` (`aiService.ts` lines 229, 234). -/
def finalReasonOf (m : MarketDataCollection) (a : AccountContext) : Reason :=
  match mgmtOf m a with
  | some g => g.reason
  | none => (analyzeStrategy m a).reason

/-- Position sizer (`aiService.ts` lines 240-260): risk 5% of available
equity over the stop distance, converted to contracts, floored, raised to a
minimum of 1 (default 1 when the stop distance is 0), then shrunk to the
20× notional cap when exceeded. -/
def computeSize (avail entry finalSL : ℚ) : ℚ :=
  let riskPerTrade := avail * (5 / 100)
  let stopDist := |entry - finalSL|
  let size0 : ℚ :=
    if stopDist > 0 then
      let coinSize := riskPerTrade / stopDist
      let contracts := coinSize / CONTRACT_VAL_ETH
      let fl : ℚ := ((⌊contracts⌋ : ℤ) : ℚ)
      if fl < 1 then 1 else fl
    else 1
  let maxNotional := avail * 20
  let currentNotional := size0 * CONTRACT_VAL_ETH * entry
  if currentNotional > maxNotional then
    ((⌊maxNotional / (CONTRACT_VAL_ETH * entry)⌋ : ℤ) : ℚ)
  else size0

/-- `size` (`aiService.ts` lines 238-261): the sizer runs only for Buy/Sell
final actions, otherwise the size stays "0". -/
def orderSizeOf (m : MarketDataCollection) (a : AccountContext) : ℚ :=
  if finalActionOf m a = .BUY ∨ finalActionOf m a = .SELL then
    computeSize a.balance.availEq (entryPriceOf m) (finalSLOf m a)
  else 0

/-- `getTradingDecision` (`aiService.ts` lines 209-282): strategy, position
management, aggregation and sizing composed into the returned decision
(`apiKey` is unused by the logic and dropped; the function's asynchrony is
irrelevant to its value). -/
def getTradingDecision (m : MarketDataCollection) (a : AccountContext) :
    AIDecisionOut :=
  { action := finalActionOf m a
    size := orderSizeOf m a
    leverage := "10"
    trading_decision :=
      { action := finalActionOf m a
        confidence := "100%"
        position_size := orderSizeOf m a
        leverage := "10"
        profit_target := "0"
        stop_loss := finalSLOf m a
        invalidation_condition := "趋势反转" }
    reason := finalReasonOf m a }

/-- Size positivity and integrality of the sizer: with non-negative
available equity and a positive entry price, every branch yields the cast
of a natural number. -/
theorem computeSize_nonneg_integer (avail entry finalSL : ℚ)
    (havail : 0 ≤ avail) (hentry : 0 < entry) :
    ∃ n : ℕ, computeSize avail entry finalSL = (n : ℚ) := by
  have hcv : (0 : ℚ) < CONTRACT_VAL_ETH := by norm_num [CONTRACT_VAL_ETH]
  have hfl : ∀ x : ℚ, 0 ≤ x → ∃ n : ℕ, ((⌊x⌋ : ℤ) : ℚ) = (n : ℚ) := fun x hx =>
    ⟨(⌊x⌋).toNat, by
      exact_mod_cast (Int.toNat_of_nonneg (Int.floor_nonneg.mpr hx)).symm⟩
  have h1 : 0 ≤ avail * 20 / (CONTRACT_VAL_ETH * entry) :=
    div_nonneg (mul_nonneg havail (by norm_num)) (le_of_lt (mul_pos hcv hentry))
  have h2 : 0 ≤ avail * (5 / 100) / |entry - finalSL| / CONTRACT_VAL_ETH :=
    div_nonneg (div_nonneg (mul_nonneg havail (by norm_num)) (abs_nonneg _))
      (le_of_lt hcv)
  rw [computeSize]
  dsimp only
  repeat' split
  all_goals
    first
      | exact hfl _ h1
      | exact hfl _ h2
      | exact ⟨1, Nat.cast_one.symm⟩

/-- C8: whenever the available equity is non-negative and the entry price
(last traded price) is positive, a Buy or Sell decision carries a position
size that denotes a non-negative whole number of contracts — never negative
and never fractional. -/
theorem getTradingDecision_size_nonneg_integer (m : MarketDataCollection)
    (a : AccountContext)
    (havail : 0 ≤ a.balance.availEq) (hentry : 0 < entryPriceOf m)
    (hact : (getTradingDecision m a).action = .BUY ∨
      (getTradingDecision m a).action = .SELL) :
    ∃ n : ℕ, (getTradingDecision m a).size = (n : ℚ) := by
  have hsz : (getTradingDecision m a).size = orderSizeOf m a := rfl
  rw [hsz, orderSizeOf]
  split
  · exact computeSize_nonneg_integer _ _ _ havail hentry
  · exact ⟨0, by norm_num⟩

/-- Witness market for C8: the C1 entry market extended with a ticker whose
last price is 100. -/
def mC8 : MarketDataCollection :=
  ⟨some ⟨INSTRUMENT_ID, 100, "", "", "", "", "", "", "", ""⟩,
    List.replicate 59 (mkC 100) ++ [mkC 1000],
    List.replicate 58 (mkC 100) ++ [mkC 1, mkC 1000], 0, 0⟩

/-- Witness for C8: the engineered Buy cycle yields a natural-number
contract count. -/
theorem getTradingDecision_size_nonneg_integer_witness :
    ∃ n : ℕ, (getTradingDecision mC8 ⟨⟨1000, 1000, ""⟩, []⟩).size = (n : ℚ) :=
  getTradingDecision_size_nonneg_integer mC8 ⟨⟨1000, 1000, ""⟩, []⟩
    (by decide) (by decide) (by decide)

/-- C10: every decision returned by `getTradingDecision` carries the
constant leverage string "10" (both at top level and inside
`trading_decision`) and the constant take-profit string "0" — for every
market snapshot and account context, hence for every resulting action. -/
theorem getTradingDecision_constant_leverage_and_tp (m : MarketDataCollection)
    (a : AccountContext) :
    (getTradingDecision m a).leverage = "10" ∧
      (getTradingDecision m a).trading_decision.leverage = "10" ∧
      (getTradingDecision m a).trading_decision.profit_target = "0" :=
  ⟨rfl, rfl, rfl⟩

/-- Exchange response envelope (`{code, msg}`; the `data` payload is never
inspected beyond `code`/`msg` on the execution paths modelled here). -/
structure ExchangeResponse where
  code : String
  msg : String
deriving DecidableEq, Repr

/-- One network request issued by the execution client, in issue order. -/
inductive ApiCall
  | getAccountConfig
  | setPositionMode
  | setLeverage (lever : String) (posSide : PosSide)
  | closePosition (posSide : PosSide)
  | placeOrder (sz : Option ℚ) (slAttached : Option ℚ)
deriving DecidableEq, Repr

/-- The exchange's predetermined replies for one `executeOrder` invocation
(the non-simulation path); this makes the network explicit so that
`executeOrder` is a pure function of the instruction and these replies. -/
structure ExchangeEnv where
  configCode : String
  configPosMode : String
  setPosModeResp : ExchangeResponse
  setLeverageResp : ExchangeResponse
  closeLongResp : ExchangeResponse
  closeShortResp : ExchangeResponse
  orderResp : ExchangeResponse
deriving DecidableEq, Repr

/-- The fields of the `AIDecision` that `executeOrder` reads. `size` and
`stop_loss` are the `parseFloat` values of the corresponding strings
(`none` = NaN / unparsable); `leverage` is kept as a string because it is
passed through verbatim to the set-leverage request. -/
structure OrderInstruction where
  action : Action
  size : Option ℚ
  leverage : String
  stop_loss : Option ℚ
deriving DecidableEq, Repr

/-- Requests issued by `ensureLongShortMode` (`part_000` lines 173-193):
read the account config; if it reports a mode other than
`long_short_mode`, post the mode switch. A failure of the switch is thrown
but caught and only logged by the caller (`part_000` line 202), so it never
affects the rest of the instruction — hence only the trace matters. -/
def ensureModeTrace (env : ExchangeEnv) : List ApiCall :=
  .getAccountConfig ::
    (if env.configCode = "0" ∧ env.configPosMode ≠ "long_short_mode" then
      [.setPositionMode]
    else [])

/-- Error text of the both-sides-failed close (`part_000` line 221). -/
def closeFailMsg (longMsg shortMsg : String) : String :=
  "平仓失败 (多: " ++ longMsg ++ ", 空: " ++ shortMsg ++ ")"

/-- `executeOrder` (`part_000` lines 195-280), non-simulation path, as a
pure function from the instruction and the exchange's replies to the
instruction's outcome together with the ordered trace of requests issued.
Notes kept faithful to the source:
* the position-mode pre-step runs first for every action;
* CLOSE returns as soon as the long-side close succeeds (`part_000`
  line 212) — the short side is attempted only after a long-side failure;
* for BUY/SELL, the leverage request precedes the size validation, and a
  NaN size passes the `sizeFloat < 0.01` check (a JS NaN comparison is
  false), so the order request is issued with a NaN size string;
* the invalid-size error message abstracts the source's
  "无效数量: " + order.size (the raw string is not carried in this model). -/
def executeOrder (order : OrderInstruction) (env : ExchangeEnv) :
    Except String ExchangeResponse × List ApiCall :=
  let pre := ensureModeTrace env
  if order.action = .CLOSE then
    if env.closeLongResp.code = "0" then
      (.ok env.closeLongResp, pre ++ [.closePosition .long])
    else if env.closeShortResp.code = "0" then
      (.ok env.closeShortResp, pre ++ [.closePosition .long, .closePosition .short])
    else
      (.error (closeFailMsg env.closeLongResp.msg env.closeShortResp.msg),
        pre ++ [.closePosition .long, .closePosition .short])
  else
    let posSide : PosSide := if order.action = .BUY then .long else .short
    let lever := if order.leverage = "" then "50" else order.leverage
    let trace1 := pre ++ [.setLeverage lever posSide]
    if env.setLeverageResp.code ≠ "0" then
      (.error ("无法设置杠杆: " ++ "设置杠杆失败 (" ++ lever ++ "x): " ++
        env.setLeverageResp.msg ++ " (Code: " ++ env.setLeverageResp.code ++ ")"),
        trace1)
    else
      let validSl : Option ℚ :=
        match order.stop_loss with
        | some w => if w > 0 then some w else none
        | none => none
      let doPlace : Option ℚ → Except String ExchangeResponse × List ApiCall :=
        fun sz =>
          let trace2 := trace1 ++ [.placeOrder sz validSl]
          if env.orderResp.code ≠ "0" then
            (.error ("下单失败: " ++ env.orderResp.msg ++ " (Code: " ++
              env.orderResp.code ++ ")"), trace2)
          else (.ok env.orderResp, trace2)
      match order.size with
      | some v => if v < 1 / 100 then (.error "无效数量", trace1) else doPlace (some (round2 v))
      | none => doPlace none

/-- A Close instruction (shared input of the C3 counterexample, theorem and
witness). -/
def closeOrderC3 : OrderInstruction := ⟨.CLOSE, none, "10", none⟩

/-- Exchange replies in which the long-side close succeeds. -/
def envC3 : ExchangeEnv :=
  ⟨"0", "long_short_mode", ⟨"0", ""⟩, ⟨"0", ""⟩, ⟨"0", "ok"⟩, ⟨"0", "ok2"⟩, ⟨"0", "ok3"⟩⟩

/-- Counterexample to C3 as stated: when the long-side close succeeds, the
short-side close is NOT attempted — the claim's "regardless of the long
attempt's outcome, attempts to close the short position" fails. The trace
of the Close instruction contains no short-side close request. -/
theorem executeOrder_close_skips_short_counterexample :
    (executeOrder closeOrderC3 envC3).1 = .ok ⟨"0", "ok"⟩ ∧
    (executeOrder closeOrderC3 envC3).2 =
      [ApiCall.getAccountConfig, ApiCall.closePosition .long] ∧
    ApiCall.closePosition .short ∉ (executeOrder closeOrderC3 envC3).2 :=
  ⟨rfl, rfl, by decide⟩

/-- C3 (amended): a Close instruction attempts the long-side close first and
returns its success immediately; only when the long side fails is the
short-side close attempted; the overall result is a success iff either
attempt returns code "0"; when both fail, the raised error message is the
concatenation containing both underlying exchange messages. -/
theorem executeOrder_close_fallback_spec (order : OrderInstruction)
    (env : ExchangeEnv) (h : order.action = .CLOSE) :
    (env.closeLongResp.code = "0" →
      executeOrder order env =
        (.ok env.closeLongResp, ensureModeTrace env ++ [.closePosition .long])) ∧
    (env.closeLongResp.code ≠ "0" → env.closeShortResp.code = "0" →
      executeOrder order env =
        (.ok env.closeShortResp,
          ensureModeTrace env ++ [.closePosition .long, .closePosition .short])) ∧
    (env.closeLongResp.code ≠ "0" → env.closeShortResp.code ≠ "0" →
      executeOrder order env =
        (.error (closeFailMsg env.closeLongResp.msg env.closeShortResp.msg),
          ensureModeTrace env ++ [.closePosition .long, .closePosition .short])) := by
  refine ⟨fun h1 => ?_, fun h1 h2 => ?_, fun h1 h2 => ?_⟩
  · simp [executeOrder, h, h1]
  · simp [executeOrder, h, h1, h2]
  · simp [executeOrder, h, h1, h2]

/-- Exchange replies in which both close attempts fail. -/
def envC3w : ExchangeEnv :=
  ⟨"0", "long_short_mode", ⟨"0", ""⟩, ⟨"0", ""⟩, ⟨"1", "failL"⟩, ⟨"1", "failS"⟩,
    ⟨"0", "ok"⟩⟩

/-- Witness for the amended C3: with both sides failing, the result is the
error carrying both messages, after attempting both closes in order. -/
theorem executeOrder_close_fallback_spec_witness :
    executeOrder closeOrderC3 envC3w =
      (.error (closeFailMsg "failL" "failS"),
        ensureModeTrace envC3w ++
          [ApiCall.closePosition .long, ApiCall.closePosition .short]) :=
  (executeOrder_close_fallback_spec closeOrderC3 envC3w rfl).2.2
    (by decide) (by decide)

/-- Exchange replies in which every request succeeds and the account is
already in long-short mode. -/
def envOkC4 : ExchangeEnv :=
  ⟨"0", "long_short_mode", ⟨"0", ""⟩, ⟨"0", "lev ok"⟩, ⟨"0", ""⟩, ⟨"0", ""⟩,
    ⟨"0", "order ok"⟩⟩

/-- A Buy instruction whose size string does not parse (NaN). -/
def nanOrderC4 : OrderInstruction := ⟨.BUY, none, "10", some 95⟩

/-- A Buy instruction whose size 0.005 is below the 0.01-contract minimum. -/
def smallOrderC4 : OrderInstruction := ⟨.BUY, some (1 / 200), "10", some 95⟩

/-- Counterexample to C4 as stated, in both of its parts. (1) An unparsable
(NaN) size is NOT rejected: the JS comparison `NaN < 0.01` is false, so the
validation passes and the order request is issued (with a NaN size) and
succeeds. (2) A size below 0.01 is rejected with the invalid-quantity
error, but only after network calls were already made — the trace contains
the set-leverage request (and the position-mode read), contradicting
"aborted before any network call". -/
theorem executeOrder_invalid_size_counterexample :
    ((executeOrder nanOrderC4 envOkC4).1 = .ok ⟨"0", "order ok"⟩ ∧
      ApiCall.placeOrder none (some 95) ∈ (executeOrder nanOrderC4 envOkC4).2) ∧
    ((executeOrder smallOrderC4 envOkC4).1 = .error "无效数量" ∧
      ApiCall.setLeverage "10" .long ∈ (executeOrder smallOrderC4 envOkC4).2) :=
  ⟨⟨rfl, by decide⟩, ⟨rfl, by decide⟩⟩

/-- C4 (amended): for a Buy or Sell instruction whose size parses to a value
below the 0.01-contract minimum, `executeOrder` (with the leverage request
succeeding) fails with the invalid-quantity error and no order request is
ever issued — but the position-mode and leverage requests have already been
made by then, and an unparsable (NaN) size is not caught by this
validation at all (see the counterexample). -/
theorem executeOrder_small_size_rejected (order : OrderInstruction)
    (env : ExchangeEnv) (v : ℚ)
    (hact : order.action = .BUY ∨ order.action = .SELL)
    (hlev : env.setLeverageResp.code = "0")
    (hsz : order.size = some v) (hlt : v < 1 / 100) :
    (executeOrder order env).1 = .error "无效数量" ∧
    ∀ sz sl, ApiCall.placeOrder sz sl ∉ (executeOrder order env).2 := by
  have hne : ¬(order.action = .CLOSE) := by
    rcases hact with h | h <;> simp [h]
  have hlt2 : v < (100 : ℚ)⁻¹ := by rwa [one_div] at hlt
  constructor
  · simp [executeOrder, hne, hlev, hsz, hlt2]
  · intro sz sl
    simp [executeOrder, hne, hlev, hsz, hlt2, ensureModeTrace]

/-- Witness for the amended C4: size 0.005 is rejected with no order request
in the trace. -/
theorem executeOrder_small_size_rejected_witness :
    (executeOrder smallOrderC4 envOkC4).1 = .error "无效数量" ∧
    ∀ sz sl, ApiCall.placeOrder sz sl ∉ (executeOrder smallOrderC4 envOkC4).2 :=
  executeOrder_small_size_rejected smallOrderC4 envOkC4 (1 / 200)
    (Or.inl rfl) rfl rfl (by decide)

end GoldenCross
